import Mathlib

/-!
Shallow embedding of the ig-mcp-cursor server (TypeScript sources:
src/index.ts, src/session-manager.ts, src/ig-client.ts, src/types.ts)
into Lean 4, together with theorems settling the frozen claims about it.

Modelling conventions:
* JavaScript values that may be `undefined` are modelled as `Option`;
  JavaScript string truthiness (`""` is falsy) is `truthyS`.
* JSON-serialisable values are the inductive `JVal`.  `JSON.stringify`
  drops `undefined` object fields, so an absent field and a field that
  would serialise to nothing are both `none`.
* Network I/O is modelled by oracles: the HTTP outcome of a request is an
  input to the function that performs it.
* Mutation of the module-level maps (`sessions`, `clients`,
  `authenticatedConnections`) is explicit state passing on `ServerState`.
-/

namespace IgMcp

/-- JSON-ish runtime values. -/
inductive JVal where
  | null
  | bool (b : Bool)
  | num (n : Int)
  | str (s : String)
  | arr (elems : List JVal)
  | obj (fields : List (String × JVal))

/-- `typeof v === 'object'` (true for objects, arrays and `null`). -/
def JVal.isObjTypeof : JVal → Bool
  | .obj _ => true
  | .arr _ => true
  | .null => true
  | _ => false

/-- JavaScript truthiness of a JSON value. -/
def JVal.truthy : JVal → Bool
  | .null => false
  | .bool b => b
  | .num n => n != 0
  | .str s => s != ""
  | .arr _ => true
  | .obj _ => true

/-- First binding of a key in an object; `none` for non-objects or absent keys. -/
def JVal.objField : JVal → String → Option JVal
  | .obj fields, k => (fields.find? (fun p => p.1 == k)).map (·.2)
  | _, _ => none

/-- The string content of a string value. -/
def JVal.asStringOpt : JVal → Option String
  | .str s => some s
  | _ => none

/-- JavaScript truthiness of a possibly-undefined string. -/
def truthyS : Option String → Bool
  | some s => s != ""
  | none => false

/-- JavaScript `x || d` on a possibly-undefined string. -/
def jsOr (x : Option String) (d : String) : String :=
  match x with
  | some s => if s = "" then d else s
  | none => d

/-- JavaScript `x || d` on a possibly-undefined number. -/
def jsOrNum (x : Option Rat) (d : Rat) : Rat :=
  match x with
  | some n => if n = 0 then d else n
  | none => d

/-- A JavaScript `Error` object (`display` is its `String(error)` rendering). -/
structure JsError where
  message : String
  stack : String
  display : String

/-- A thrown JavaScript value: an `Error` instance or anything else
(kept as its `String(value)` rendering). -/
inductive JsThrown where
  | err (e : JsError)
  | nonError (s : String)

/-- `error instanceof Error ? error.message : String(error)`. -/
def thrownMessage : JsThrown → String
  | .err e => e.message
  | .nonError s => s

/-- `error instanceof Error ? error.stack : String(error)`. -/
def thrownStack : JsThrown → String
  | .err e => e.stack
  | .nonError s => s

/-- `(error as Error).message || String(error)` (non-Error values have no
`message` property, so `String(error)` is used). -/
def thrownErrMessage : JsThrown → String
  | .err e => if e.message = "" then e.display else e.message
  | .nonError s => s

/-- The `config` of an axios error (`url`/`method`/`data` of the request). -/
structure AxiosConfig where
  url : Option String
  method : Option String
  data : Option JVal

/-- A resolved axios HTTP response. -/
structure AxiosResponse where
  status : Nat
  statusText : String
  data : JVal
  headers : List (String × String)

/-- An axios error: the rejected request, with the upstream response when
one was received (absent on network/transport failure). -/
structure AxiosErr where
  response : Option AxiosResponse
  message : String
  config : Option AxiosConfig

/-- A value thrown inside an IGClient request: an axios error or any other
thrown value (`axios.isAxiosError` distinguishes the two). -/
inductive ThrownError where
  | axios (ax : AxiosErr)
  | other (t : JsThrown)

/-- Outcome of one HTTP request: resolved 2xx response or a thrown error. -/
inductive HttpOutcome where
  | success (resp : AxiosResponse)
  | failure (error : ThrownError)

/-- Case-sensitive lookup in an axios header record. -/
def headerLookup (headers : List (String × String)) (k : String) : Option String :=
  (headers.find? (fun p => p.1 == k)).map (·.2)

/-- src/types.ts `IGCredentials`. -/
structure IGCredentials where
  username : String
  password : String
  apiKey : String

/-- src/types.ts `IGSession` (the `Date` timestamp is a Nat clock value). -/
structure IGSession where
  securityToken : Option String
  clientSessionToken : Option String
  cst : Option String
  xSecurityToken : Option String
  accountId : Option String
  accountType : Option String
  lightstreamerEndpoint : Option String
  authenticated : Bool
  authenticatedAt : Option Nat

/-- src/types.ts `IGError`. -/
structure IGError where
  errorCode : String
  errorMessage : String

/-- The `request` part of the `debug` block built by `handleError`. -/
structure RequestInfo where
  url : Option String
  method : Option String
  data : Option JVal

/-- src/types.ts `IGResponse.debug`. -/
structure DebugInfo where
  status : Option Nat
  statusText : Option String
  response : Option JVal
  request : Option RequestInfo
  error : Option JsThrown

/-- src/types.ts `IGResponse<T>`. -/
structure IGResponse (α : Type) where
  success : Bool
  data : Option α
  error : Option IGError
  debug : Option DebugInfo
  userMessage : Option String

/-- JSON encoding of `RequestInfo` (content is only ever inspected for
objecthood by `formatResponse`). -/
def RequestInfo.toJVal (r : RequestInfo) : JVal :=
  .obj ((match r.url with | some u => [("url", JVal.str u)] | none => [])
    ++ (match r.method with | some m => [("method", JVal.str m)] | none => [])
    ++ (match r.data with | some d => [("data", d)] | none => []))

/-- JSON encoding of `DebugInfo` (an `Error` object serialises to `{}`). -/
def DebugInfo.toJVal (d : DebugInfo) : JVal :=
  .obj ((match d.status with | some n => [("status", JVal.num n)] | none => [])
    ++ (match d.statusText with | some s => [("statusText", JVal.str s)] | none => [])
    ++ (match d.response with | some v => [("response", v)] | none => [])
    ++ (match d.request with | some r => [("request", r.toJVal)] | none => [])
    ++ (match d.error with | some _ => [("error", JVal.obj [])] | none => []))

/-! ### SessionManager (src/session-manager.ts) -/

/-- One entry of the session store. -/
structure ConnectionSession where
  session : Option IGSession
  credentials : Option IGCredentials

/-- The module-level `sessions` map, as an association list. -/
abbrev Sessions := List (String × ConnectionSession)

/-- Lookup in an association list (JS `Map.get`). -/
def getAssoc {α : Type} (l : List (String × α)) (k : String) : Option α :=
  (l.find? (fun p => p.1 == k)).map (·.2)

/-- Update/insert in an association list (JS `Map.set`). -/
def setAssoc {α : Type} (l : List (String × α)) (k : String) (v : α) : List (String × α) :=
  match l with
  | [] => [(k, v)]
  | (k', v') :: rest => if k' == k then (k, v) :: rest else (k', v') :: setAssoc rest k v

/-- Removal from an association list (JS `Map.delete`). -/
def removeAssoc {α : Type} (l : List (String × α)) (k : String) : List (String × α) :=
  l.filter (fun p => p.1 != k)

namespace SessionManager

/-- `getSessionStore` followed by reading `session` is a pure lookup:
the entry it may create holds `session: null`, which reads back as the
same `none`. -/
def getSession (ss : Sessions) (connId : String) : Option IGSession :=
  match getAssoc ss connId with
  | some store => store.session
  | none => none

/-- `SessionManager.setSession`. -/
def setSession (ss : Sessions) (connId : String) (s : IGSession) : Sessions :=
  let store := (getAssoc ss connId).getD ⟨none, none⟩
  setAssoc ss connId { store with session := some s }

/-- `SessionManager.setCredentials`. -/
def setCredentials (ss : Sessions) (connId : String) (c : IGCredentials) : Sessions :=
  let store := (getAssoc ss connId).getD ⟨none, none⟩
  setAssoc ss connId { store with credentials := some c }

/-- `SessionManager.clearSession`. -/
def clearSession (ss : Sessions) (connId : String) : Sessions :=
  setAssoc ss connId ⟨none, none⟩

/-- `SessionManager.isAuthenticated`: `session?.authenticated === true`. -/
def isAuthenticated (ss : Sessions) (connId : String) : Bool :=
  match getSession ss connId with
  | some s => s.authenticated
  | none => false

end SessionManager

/-! ### IGClient (src/ig-client.ts) -/

/-- BUY/SELL direction. -/
inductive Direction where
  | BUY
  | SELL
deriving DecidableEq, Repr

/-- An `IGClient` instance: constructor arguments plus the mutable default
headers `CST`/`X-SECURITY-TOKEN` of its axios instance. -/
structure IGClient where
  apiKey : String
  baseUrl : String
  cstHeader : Option String
  xstHeader : Option String

/-- src/types.ts `Position` (numbers as rationals). -/
structure Position where
  contractSize : Rat
  createdDate : String
  createdDateUTC : String
  currency : String
  dealId : String
  dealReference : String
  direction : Direction
  level : Rat
  limitLevel : Option Rat
  size : Rat
  status : String
  stopLevel : Option Rat
  trailingStep : Option Rat
  trailingStopDistance : Option Rat
  instrumentName : String
  epic : String
  expiry : Option String
  profit : Option Rat
  profitCurrency : Option String
deriving DecidableEq

/-- `errorCode`/`errorMessage` extraction at the top of `handleError`:
starts from `('UNKNOWN_ERROR', axiosError.message)` and refines from the
upstream body when it is truthy and carries the fields (the body's
`errorCode`/`errorMessage` are strings per the upstream API's contract). -/
def errorBits (ax : AxiosErr) : String × String :=
  let base : String × String := ("UNKNOWN_ERROR", ax.message)
  match ax.response with
  | none => base
  | some resp =>
    let d := resp.data
    if d.truthy then
      match d.objField "errorCode" with
      | some v =>
        (((v.asStringOpt).getD "UNKNOWN_ERROR"),
          match (d.objField "errorMessage").bind JVal.asStringOpt with
          | some m => if m = "" then ax.message else m
          | none => ax.message)
      | none =>
        match d.asStringOpt with
        | some s => ("UNKNOWN_ERROR", s)
        | none => base
    else base

/-- The user-facing message chosen by `handleError` from the HTTP status. -/
def friendlyMessage (status : Option Nat) (userMessage : String) : String :=
  if status = some 401 ∨ status = some 403 then
    "Authentication failed. Please check your credentials and try logging in again."
  else if status = some 404 then
    "The requested resource was not found. Please check the parameters."
  else if status = some 429 then
    "Rate limit exceeded. Please wait a moment before trying again."
  else if status = some 500 ∨ status = some 502 ∨ status = some 503 then
    "IG API is currently unavailable. Please try again later."
  else userMessage

/-- `IGClient.handleError`. -/
def handleError {α : Type} (error : ThrownError) (userMessage : String) : IGResponse α :=
  match error with
  | .axios ax =>
    let status := ax.response.map (·.status)
    let bits := errorBits ax
    { success := false
      data := none
      error := some ⟨bits.1, bits.2⟩
      debug := some
        { status := status
          statusText := ax.response.map (·.statusText)
          response := ax.response.map (·.data)
          request := some ⟨ax.config.bind (·.url), ax.config.bind (·.method), ax.config.bind (·.data)⟩
          error := none }
      userMessage := some (friendlyMessage status userMessage) }
  | .other t =>
    { success := false
      data := none
      error := some ⟨"UNKNOWN_ERROR", thrownErrMessage t⟩
      debug := some { status := none, statusText := none, response := none, request := none, error := some t }
      userMessage := some userMessage }

/-- `IGClient.authenticate`: POST /session, then read the `cst` and
`x-security-token` response headers; missing (falsy) tokens are an
AUTH_ERROR even on HTTP success; on success the tokens become the
client's default outbound headers.  Returns the result and the
(possibly mutated) client. -/
def IGClient.authenticate (c : IGClient) (_credentials : IGCredentials)
    (outcome : HttpOutcome) (now : Nat) : IGResponse IGSession × IGClient :=
  match outcome with
  | .failure e => (handleError e "Authentication failed", c)
  | .success resp =>
    let cst := headerLookup resp.headers "cst"
    let xst := headerLookup resp.headers "x-security-token"
    if truthyS cst = false ∨ truthyS xst = false then
      ({ success := false
         data := none
         error := some ⟨"AUTH_ERROR", "Missing authentication tokens in response"⟩
         debug := some
           { status := some resp.status
             statusText := none
             response := some (.obj (resp.headers.map (fun p => (p.1, JVal.str p.2))))
             request := none
             error := none }
         userMessage := some "Authentication failed: Invalid response from IG API" }, c)
    else
      let session : IGSession :=
        { cst := cst
          xSecurityToken := xst
          clientSessionToken := cst
          securityToken := xst
          accountId := (resp.data.objField "accountId").bind JVal.asStringOpt
          accountType := (resp.data.objField "accountType").bind JVal.asStringOpt
          lightstreamerEndpoint := (resp.data.objField "lightstreamerEndpoint").bind JVal.asStringOpt
          authenticated := true
          authenticatedAt := some now }
      ({ success := true
         data := some session
         error := none
         debug := none
         userMessage := some "Successfully authenticated with IG API" },
       { c with cstHeader := cst, xstHeader := xst })

/-- `IGClient.setSession`: adopt the session tokens as default headers
when both are truthy. -/
def IGClient.setSession (c : IGClient) (session : IGSession) : IGClient :=
  if truthyS session.cst && truthyS session.xSecurityToken then
    { c with cstHeader := session.cst, xstHeader := session.xSecurityToken }
  else c

/-- HTTP outcome of GET /positions, with the response body viewed as its
(possibly absent) `positions` array. -/
inductive PositionsHttp where
  | success (positions : Option (List Position))
  | failure (error : ThrownError)

/-- `IGClient.getPositions`: returns `response.data.positions` as-is. -/
def IGClient.getPositions : PositionsHttp → IGResponse (List Position)
  | .success ps =>
    { success := true
      data := ps
      error := none
      debug := none
      userMessage := some "Positions retrieved successfully" }
  | .failure e => handleError e "Failed to retrieve positions"

/-- `IGClient.getOpenPositions`:
`response.data.positions?.filter((p) => p.status === 'OPEN') || []`. -/
def IGClient.getOpenPositions : PositionsHttp → IGResponse (List Position)
  | .success ps =>
    { success := true
      data := some (match ps with
        | some l => l.filter (fun p => p.status == "OPEN")
        | none => [])
      error := none
      debug := none
      userMessage := some "Open positions retrieved successfully" }
  | .failure e => handleError e "Failed to retrieve open positions"

/-- The request body DELETE /positions/otc sends for a close. -/
structure ClosePositionBody where
  dealId : String
  direction : Direction
  size : Rat
  orderType : String
  timeInForce : String
deriving DecidableEq

/-- `IGClient.closePosition`: sends the opposite direction to close, with
the given size, as a MARKET / FILL_OR_KILL order.  Returns the request
body sent and the result. -/
def IGClient.closePosition (dealId : String) (direction : Direction) (size : Rat)
    (outcome : HttpOutcome) : ClosePositionBody × IGResponse JVal :=
  let body : ClosePositionBody :=
    { dealId := dealId
      direction := if direction = .BUY then .SELL else .BUY
      size := size
      orderType := "MARKET"
      timeInForce := "FILL_OR_KILL" }
  match outcome with
  | .success resp =>
    (body,
      { success := true
        data := some resp.data
        error := none
        debug := none
        userMessage := some ("Position " ++ dealId ++ " closed successfully") })
  | .failure e => (body, handleError e ("Failed to close position " ++ dealId))

/-! ### MCP server dispatch (src/index.ts) -/

/-- The environment-derived configuration read at module load. -/
structure ServerConfig where
  API_KEY : String
  USERNAME : String
  PASSWORD : String
  API_URL : String
  MCP_SERVER_API_KEY : String
  REQUIRE_ENV_CREDENTIALS : Bool
  REQUIRE_AUTHENTICATION : Bool

/-- The mutable module-level state: the `authenticatedConnections` set,
the `clients` map and the SessionManager store. -/
structure ServerState where
  authenticatedConnections : List String
  clients : List (String × IGClient)
  sessions : Sessions

/-- The `{message, data, debug?}` object serialised into `content[0].text`. -/
structure McpResult where
  message : String
  data : Option JVal
  debug : Option JVal

/-- A tool-call result: the decoded content object plus `isError`. -/
structure Envelope where
  body : McpResult
  isError : Bool

/-- `formatResponse`: default message, data as given, debug attached only
when it is a truthy object. -/
def formatResponse (data : Option JVal) (userMessage : Option String)
    (debug : Option JVal) : McpResult :=
  { message := jsOr userMessage "Operation completed successfully"
    data := data
    debug := match debug with
      | some d => if d.truthy && d.isObjTypeof then some d else none
      | none => none }

/-- `ensureAuthenticated`: the error message, or `null` when an
authenticated session exists for the connection. -/
def ensureAuthenticated (ss : Sessions) (connId : String) : Option String :=
  match SessionManager.getSession ss connId with
  | none => some "Not authenticated. Please use the login tool first."
  | some session =>
    if session.authenticated then none
    else some "Not authenticated. Please use the login tool first."

/-- `validateApiKey`. -/
def validateApiKey (cfg : ServerConfig) (apiKey : String) : Bool :=
  if cfg.MCP_SERVER_API_KEY = "" then true
  else apiKey == cfg.MCP_SERVER_API_KEY

/-- `isConnectionAuthenticated`. -/
def isConnectionAuthenticated (cfg : ServerConfig) (st : ServerState)
    (connId : String) : Bool :=
  if cfg.REQUIRE_AUTHENTICATION = false ∨ cfg.MCP_SERVER_API_KEY = "" then true
  else st.authenticatedConnections.contains connId

/-- `authenticateConnection`: returns the verdict and the updated
`authenticatedConnections` set. -/
def authenticateConnection (cfg : ServerConfig) (st : ServerState)
    (connId : String) (apiKey : String) : Bool × ServerState :=
  if cfg.REQUIRE_AUTHENTICATION = false ∨ cfg.MCP_SERVER_API_KEY = "" then (true, st)
  else if validateApiKey cfg apiKey then
    (true, { st with authenticatedConnections := connId :: st.authenticatedConnections })
  else (false, st)

/-- The arguments record of a tool call; every field may be absent.
(`from`/`to` are named `fromTime`/`toTime`.) -/
structure ToolArgs where
  username : Option String := none
  password : Option String := none
  apiKey : Option String := none
  accountId : Option String := none
  dealId : Option String := none
  direction : Option Direction := none
  size : Option Rat := none
  epic : Option String := none
  expiry : Option String := none
  orderType : Option String := none
  level : Option Rat := none
  timeInForce : Option String := none
  goodTillDate : Option String := none
  guaranteedStop : Option Bool := none
  stopLevel : Option Rat := none
  stopDistance : Option Rat := none
  limitLevel : Option Rat := none
  limitDistance : Option Rat := none
  currencyCode : Option String := none
  forceOpen : Option Bool := none
  searchTerm : Option String := none
  resolution : Option String := none
  fromTime : Option String := none
  toTime : Option String := none
  pageSize : Option Rat := none
  watchlistId : Option String := none
  method : Option String := none
  endpoint : Option String := none
  payload : Option JVal := none
  version : Option String := none
  additionalHeaders : Option (List (String × String)) := none

/-- The `orderRequest` object assembled in the ig_place_order case. -/
structure OrderRequest where
  epic : Option String
  expiry : Option String
  direction : Option Direction
  size : Option Rat
  orderType : Option String
  level : Option Rat
  timeInForce : Option String
  goodTillDate : Option String
  guaranteedStop : Option Bool
  stopLevel : Option Rat
  stopDistance : Option Rat
  limitLevel : Option Rat
  limitDistance : Option Rat
  currencyCode : Option String
  forceOpen : Option Bool

/-- One IGClient method invocation, with the arguments it was given. -/
inductive BrokerCall where
  | authenticate (credentials : IGCredentials)
  | getAccounts
  | getAccountBalance (accountId : Option String)
  | getPositions
  | getOpenPositions
  | closePosition (dealId : Option String) (direction : Option Direction) (size : Option Rat)
  | placeOrder (request : OrderRequest) (accountId : Option String)
  | getWorkingOrders
  | deleteWorkingOrder (dealId : Option String)
  | getMarketData (epic : Option String)
  | searchInstruments (searchTerm : Option String)
  | getHistoricalPrices (epic : Option String) (resolution : Option String)
      (fromTime : Option String) (toTime : Option String) (pageSize : Rat)
  | getWatchlists
  | getWatchlistMarkets (watchlistId : Option String)
  | callAPI (method : Option String) (endpoint : Option String) (payload : Option JVal)
      (version : String) (additionalHeaders : Option (List (String × String)))

/-- The broker side of a dispatch, as an oracle: the HTTP outcome of a
login POST /session for given credentials, the wall clock, and the result
of any other IGClient method call.  A resource call may also throw
(`Except.error`), modelling a programming fault surfacing at the
dispatch boundary. -/
structure BrokerOracle where
  auth : IGCredentials → HttpOutcome
  now : Nat
  resource : BrokerCall → Except JsThrown (IGResponse JVal)

/-- The per-case tool names mapped to the IGClient call they perform,
with the argument extraction done in each `case` of the switch. -/
def resourceCallOf (name : String) (args : Option ToolArgs) : Option BrokerCall :=
  if name = "ig_get_accounts" then some .getAccounts
  else if name = "ig_get_account_balance" then
    some (.getAccountBalance (args.bind (·.accountId)))
  else if name = "ig_get_positions" then some .getPositions
  else if name = "ig_get_open_positions" then some .getOpenPositions
  else if name = "ig_close_position" then
    some (.closePosition (args.bind (·.dealId)) (args.bind (·.direction)) (args.bind (·.size)))
  else if name = "ig_place_order" then
    some (.placeOrder
      { epic := args.bind (·.epic)
        expiry := args.bind (·.expiry)
        direction := args.bind (·.direction)
        size := args.bind (·.size)
        orderType := args.bind (·.orderType)
        level := args.bind (·.level)
        timeInForce := args.bind (·.timeInForce)
        goodTillDate := args.bind (·.goodTillDate)
        guaranteedStop := args.bind (·.guaranteedStop)
        stopLevel := args.bind (·.stopLevel)
        stopDistance := args.bind (·.stopDistance)
        limitLevel := args.bind (·.limitLevel)
        limitDistance := args.bind (·.limitDistance)
        currencyCode := args.bind (·.currencyCode)
        forceOpen := args.bind (·.forceOpen) }
      (args.bind (·.accountId)))
  else if name = "ig_get_working_orders" then some .getWorkingOrders
  else if name = "ig_delete_working_order" then
    some (.deleteWorkingOrder (args.bind (·.dealId)))
  else if name = "ig_get_market_data" then some (.getMarketData (args.bind (·.epic)))
  else if name = "ig_search_instruments" then
    some (.searchInstruments (args.bind (·.searchTerm)))
  else if name = "ig_get_historical_prices" then
    some (.getHistoricalPrices (args.bind (·.epic)) (args.bind (·.resolution))
      (args.bind (·.fromTime)) (args.bind (·.toTime))
      (jsOrNum (args.bind (·.pageSize)) 100))
  else if name = "ig_get_watchlists" then some .getWatchlists
  else if name = "ig_get_watchlist_markets" then
    some (.getWatchlistMarkets (args.bind (·.watchlistId)))
  else if name = "ig_call_api" then
    some (.callAPI (args.bind (·.method)) (args.bind (·.endpoint)) (args.bind (·.payload))
      (jsOr (args.bind (·.version)) "1") (args.bind (·.additionalHeaders)))
  else none

/-- The security-gate error envelope (the quotation marks the original
message puts around the tool name are omitted here). -/
def gateErrEnvelope (cfg : ServerConfig) : Envelope :=
  ⟨formatResponse none
    (some "Unauthorized: Connection not authenticated. Please call mcp_authenticate first with your MCP_SERVER_API_KEY. This prevents unauthorized access to your IG account.")
    (some (.obj
      [("securityPolicy", .str "Authentication required"),
       ("requiresAuthentication", .bool cfg.REQUIRE_AUTHENTICATION),
       ("apiKeyRequired", .bool (cfg.MCP_SERVER_API_KEY != ""))])), true⟩

/-- The mcp_authenticate case. -/
def mcpAuthCase (cfg : ServerConfig) (st : ServerState) (connId : String)
    (args : Option ToolArgs) : Envelope × ServerState × List BrokerCall :=
  let providedApiKey := jsOr (args.bind (·.apiKey)) ""
  if cfg.MCP_SERVER_API_KEY = "" then
    (⟨formatResponse (some (.obj [("authenticated", .bool true)]))
        (some "No API key required. Server is open for connections.") none, false⟩,
      st, [])
  else
    let v := authenticateConnection cfg st connId providedApiKey
    if v.1 then
      (⟨formatResponse
          (some (.obj [("authenticated", .bool true), ("connectionId", .str connId)]))
          (some "Successfully authenticated with MCP server. You can now use IG API tools.")
          none, false⟩,
        v.2, [])
    else
      (⟨formatResponse none
          (some "Authentication failed: Invalid API key. Please provide the correct MCP_SERVER_API_KEY.")
          (some (.obj [("authenticated", .bool false)])), true⟩,
        v.2, [])

/-- `!!(args?.username || args?.password || args?.apiKey)`. -/
def credentialsFromTool (args : Option ToolArgs) : Bool :=
  truthyS (args.bind (·.username)) || truthyS (args.bind (·.password))
    || truthyS (args.bind (·.apiKey))

/-- The credentials the login case resolves: tool argument when truthy,
otherwise the configured environment value. -/
def resolvedCredentials (cfg : ServerConfig) (args : Option ToolArgs) : IGCredentials :=
  { username := jsOr (args.bind (·.username)) cfg.USERNAME
    password := jsOr (args.bind (·.password)) cfg.PASSWORD
    apiKey := jsOr (args.bind (·.apiKey)) cfg.API_KEY }

/-- The debug block of the missing-credentials login error. -/
def missingCredsDebug (cfg : ServerConfig) (args : Option ToolArgs) : JVal :=
  .obj
    [("provided", .obj
        [("username", .bool (truthyS (args.bind (·.username)))),
         ("password", .bool (truthyS (args.bind (·.password)))),
         ("apiKey", .bool (truthyS (args.bind (·.apiKey))))]),
     ("envVarsSet", .obj
        [("username", .bool (cfg.USERNAME != "")),
         ("password", .bool (cfg.PASSWORD != "")),
         ("apiKey", .bool (cfg.API_KEY != ""))]),
     ("requireEnvCredentials", .bool cfg.REQUIRE_ENV_CREDENTIALS)]

/-- The `data` object of a successful login envelope (fields that are
`undefined` on the session are dropped by serialisation). -/
def loginSuccessData (sessionData : IGSession) : JVal :=
  .obj ([("authenticated", JVal.bool true)]
    ++ (match sessionData.accountId with | some s => [("accountId", JVal.str s)] | none => [])
    ++ (match sessionData.accountType with | some s => [("accountType", JVal.str s)] | none => []))

/-- The shared tail of both login branches: on broker success store the
session and credentials, push the tokens into the stored client, and
answer with the success envelope; otherwise answer with the failure
envelope. -/
def loginFinish (st : ServerState) (connId : String) (result : IGResponse IGSession)
    (credentials : IGCredentials) : Envelope × ServerState × List BrokerCall :=
  match result.data with
  | some sessionData =>
    if result.success then
      let ss1 := SessionManager.setSession st.sessions connId sessionData
      let ss2 := SessionManager.setCredentials ss1 connId credentials
      let st1 := { st with sessions := ss2 }
      let st2 := match getAssoc st1.clients connId with
        | some c => { st1 with clients := setAssoc st1.clients connId (c.setSession sessionData) }
        | none => st1
      (⟨formatResponse (some (loginSuccessData sessionData))
          (some (jsOr result.userMessage "Successfully authenticated"))
          (some (.obj [("sessionToken", .str "***hidden***")])), false⟩,
        st2, [.authenticate credentials])
    else
      (⟨formatResponse none (some (jsOr result.userMessage "Authentication failed"))
          (result.debug.map DebugInfo.toJVal), true⟩,
        st, [.authenticate credentials])
  | none =>
    (⟨formatResponse none (some (jsOr result.userMessage "Authentication failed"))
        (result.debug.map DebugInfo.toJVal), true⟩,
      st, [.authenticate credentials])

/-- The ig_login case. -/
def igLoginCase (cfg : ServerConfig) (st : ServerState) (connId : String)
    (client : IGClient) (args : Option ToolArgs) (oracle : BrokerOracle) :
    Envelope × ServerState × List BrokerCall :=
  if cfg.REQUIRE_ENV_CREDENTIALS && credentialsFromTool args then
    (⟨formatResponse none
        (some "SECURITY: This server requires credentials to be set via environment variables only. Credentials cannot be passed through tool calls. Set IG_USERNAME, IG_PASSWORD, and IG_API_KEY as environment variables.")
        (some (.obj [("securityPolicy", .str "REQUIRE_ENV_CREDENTIALS is enabled")])), true⟩,
      st, [])
  else
    let credentials := resolvedCredentials cfg args
    if credentials.username = "" ∨ credentials.password = "" ∨ credentials.apiKey = "" then
      (⟨formatResponse none
          (some "Missing credentials. Please provide username, password, and apiKey, or set them via environment variables (IG_USERNAME, IG_PASSWORD, IG_API_KEY).")
          (some (missingCredsDebug cfg args)), true⟩,
        st, [])
    else if truthyS (args.bind (·.apiKey)) && args.bind (·.apiKey) != some cfg.API_KEY then
      -- fresh-client branch: delete the old client, create one with the
      -- supplied api key, authenticate with it
      let newClient : IGClient := ⟨credentials.apiKey, cfg.API_URL, none, none⟩
      let st1 := { st with clients := setAssoc (removeAssoc st.clients connId) connId newClient }
      let r := newClient.authenticate credentials (oracle.auth credentials) oracle.now
      let st2 := { st1 with clients := setAssoc st1.clients connId r.2 }
      loginFinish st2 connId r.1 credentials
    else
      let r := client.authenticate credentials (oracle.auth credentials) oracle.now
      let st2 := { st with clients := setAssoc st.clients connId r.2 }
      loginFinish st2 connId r.1 credentials

/-- The ig_logout case. -/
def igLogoutCase (st : ServerState) (connId : String) :
    Envelope × ServerState × List BrokerCall :=
  match ensureAuthenticated st.sessions connId with
  | some authError => (⟨formatResponse none (some authError) none, true⟩, st, [])
  | none =>
    (⟨formatResponse none (some "Successfully logged out and session cleared") none, false⟩,
      { st with sessions := SessionManager.clearSession st.sessions connId }, [])

/-- The shared body of the fourteen per-resource cases: authentication
check, pushing the stored session into the client, one IGClient call,
and the uniform envelope `isError: !result.success`.  The call may
throw, in which case the state mutated so far and the calls already made
are carried to the catch. -/
def handleResource (st : ServerState) (connId : String) (client : IGClient)
    (call : BrokerCall) (oracle : BrokerOracle) :
    Except (JsThrown × ServerState × List BrokerCall)
      (Envelope × ServerState × List BrokerCall) :=
  match ensureAuthenticated st.sessions connId with
  | some authError => .ok (⟨formatResponse none (some authError) none, true⟩, st, [])
  | none =>
    let st1 := match SessionManager.getSession st.sessions connId with
      | some session =>
        { st with clients := setAssoc st.clients connId (client.setSession session) }
      | none => st
    match oracle.resource call with
    | .error t => .error (t, st1, [call])
    | .ok result =>
      .ok (⟨formatResponse result.data result.userMessage (result.debug.map DebugInfo.toJVal),
          !result.success⟩,
        st1, [call])

/-- The try-block of `executeToolCall`: the security gate and the switch. -/
def executeToolCallBody (cfg : ServerConfig) (st : ServerState) (connId : String)
    (client : IGClient) (name : String) (args : Option ToolArgs) (oracle : BrokerOracle) :
    Except (JsThrown × ServerState × List BrokerCall)
      (Envelope × ServerState × List BrokerCall) :=
  if isConnectionAuthenticated cfg st connId = false ∧ name ≠ "mcp_authenticate" then
    .ok (gateErrEnvelope cfg, st, [])
  else if name = "mcp_authenticate" then .ok (mcpAuthCase cfg st connId args)
  else if name = "ig_login" then .ok (igLoginCase cfg st connId client args oracle)
  else if name = "ig_logout" then .ok (igLogoutCase st connId)
  else
    match resourceCallOf name args with
    | some call => handleResource st connId client call oracle
    | none =>
      .ok (⟨formatResponse none (some ("Unknown tool: " ++ name)) none, true⟩, st, [])

/-- `getClient`: create the connection's client on first use. -/
def ensureClient (cfg : ServerConfig) (st : ServerState) (connId : String) : ServerState :=
  match getAssoc st.clients connId with
  | some _ => st
  | none =>
    let fresh : IGClient :=
      ⟨if cfg.API_KEY = "" then "default-key" else cfg.API_KEY, cfg.API_URL, none, none⟩
    { st with clients := setAssoc st.clients connId fresh }

/-- The client `executeToolCall` fetches at entry (present after
`ensureClient`; the default is unreachable). -/
def clientFor (cfg : ServerConfig) (st : ServerState) (connId : String) : IGClient :=
  (getAssoc st.clients connId).getD
    ⟨if cfg.API_KEY = "" then "default-key" else cfg.API_KEY, cfg.API_URL, none, none⟩

/-- The dispatch up to the catch: `getClient` then the try-block. -/
def dispatchBody (cfg : ServerConfig) (st : ServerState) (connId : String)
    (name : String) (args : Option ToolArgs) (oracle : BrokerOracle) :
    Except (JsThrown × ServerState × List BrokerCall)
      (Envelope × ServerState × List BrokerCall) :=
  executeToolCallBody cfg (ensureClient cfg st connId) connId
    (clientFor cfg (ensureClient cfg st connId) connId) name args oracle

/-- The full result of one dispatch. -/
structure CallResult where
  envelope : Envelope
  state : ServerState
  calls : List BrokerCall

/-- `executeToolCall`: the try-block with the catch-all converting any
thrown value into an error envelope. -/
def executeToolCall (cfg : ServerConfig) (st : ServerState) (connId : String)
    (name : String) (args : Option ToolArgs) (oracle : BrokerOracle) : CallResult :=
  match dispatchBody cfg st connId name args oracle with
  | .ok (e, s, cs) => ⟨e, s, cs⟩
  | .error (t, s, cs) =>
    ⟨⟨formatResponse none (some ("Unexpected error: " ++ thrownMessage t))
        (some (.obj [("error", .str (thrownStack t))])), true⟩,
      s, cs⟩

/-! ### Helper lemmas -/

theorem getAssoc_setAssoc_self {α : Type} (l : List (String × α)) (k : String) (v : α) :
    getAssoc (setAssoc l k v) k = some v := by
  induction l with
  | nil => simp [setAssoc, getAssoc]
  | cons hd tl ih =>
    obtain ⟨k', v'⟩ := hd
    by_cases h : k' = k
    · subst h
      simp [setAssoc, getAssoc]
    · simp only [setAssoc, beq_iff_eq, if_neg h]
      simpa [getAssoc, List.find?_cons, h] using ih

theorem SessionManager.getSession_setSession_self (ss : Sessions) (connId : String)
    (s : IGSession) :
    SessionManager.getSession (SessionManager.setSession ss connId s) connId = some s := by
  simp [SessionManager.getSession, SessionManager.setSession, getAssoc_setAssoc_self]

theorem SessionManager.getSession_setCredentials_self (ss : Sessions) (connId : String)
    (c : IGCredentials) :
    SessionManager.getSession (SessionManager.setCredentials ss connId c) connId
      = SessionManager.getSession ss connId := by
  simp only [SessionManager.getSession, SessionManager.setCredentials,
    getAssoc_setAssoc_self]
  cases h : getAssoc ss connId <;> simp [h, Option.getD]

theorem SessionManager.isAuthenticated_clearSession_self (ss : Sessions) (connId : String) :
    SessionManager.isAuthenticated (SessionManager.clearSession ss connId) connId = false := by
  simp [SessionManager.isAuthenticated, SessionManager.getSession,
    SessionManager.clearSession, getAssoc_setAssoc_self]

theorem ensureAuthenticated_of_not_isAuthenticated (ss : Sessions) (connId : String)
    (h : SessionManager.isAuthenticated ss connId = false) :
    ensureAuthenticated ss connId
      = some "Not authenticated. Please use the login tool first." := by
  unfold ensureAuthenticated
  unfold SessionManager.isAuthenticated at h
  cases hs : SessionManager.getSession ss connId with
  | none => rfl
  | some s =>
    rw [hs] at h
    simp at h
    simp [h]

theorem ensureAuthenticated_of_isAuthenticated (ss : Sessions) (connId : String)
    (h : SessionManager.isAuthenticated ss connId = true) :
    ensureAuthenticated ss connId = none := by
  unfold ensureAuthenticated
  unfold SessionManager.isAuthenticated at h
  cases hs : SessionManager.getSession ss connId with
  | none => rw [hs] at h; cases h
  | some s =>
    rw [hs] at h
    simp at h
    simp [h]

/-! ### Claim theorems -/

/-- C4: for every dealId, size and direction, `closePosition` sends a
request whose direction is the opposite of the given one (SELL for BUY,
BUY for SELL) and whose size is the given size unchanged. -/
theorem closePosition_inverts_direction_preserves_size
    (dealId : String) (direction : Direction) (size : Rat) (outcome : HttpOutcome) :
    ((IGClient.closePosition dealId direction size outcome).1.direction
        = match direction with | .BUY => .SELL | .SELL => .BUY)
      ∧ (IGClient.closePosition dealId direction size outcome).1.size = size
      ∧ (IGClient.closePosition dealId direction size outcome).1.dealId = dealId := by
  cases direction <;> cases outcome <;> simp [IGClient.closePosition]

/-- C6: for every broker positions response, `getOpenPositions` returns
exactly the order-preserving sublist of `getPositions`'s result whose
status is OPEN, and the empty list when the positions field is absent. -/
theorem getOpenPositions_filters_open (ps : Option (List Position)) :
    (IGClient.getOpenPositions (.success ps)).data
        = some (((IGClient.getPositions (.success ps)).data.getD []).filter
            (fun p => p.status == "OPEN"))
      ∧ List.Sublist (((IGClient.getOpenPositions (.success ps)).data).getD [])
          (((IGClient.getPositions (.success ps)).data).getD []) := by
  cases ps with
  | none => simp [IGClient.getOpenPositions, IGClient.getPositions]
  | some l =>
    refine ⟨by simp [IGClient.getOpenPositions, IGClient.getPositions], ?_⟩
    simp only [IGClient.getOpenPositions, IGClient.getPositions, Option.getD_some]
    exact List.filter_sublist (l := l)

theorem friendlyMessage_unmapped (s : Nat) (u : String)
    (h : ¬(s = 401 ∨ s = 403 ∨ s = 404 ∨ s = 429 ∨ s = 500 ∨ s = 502 ∨ s = 503)) :
    friendlyMessage (some s) u = u := by
  unfold friendlyMessage
  split_ifs with h1 h2 h3 h4
  · exfalso; simp only [Option.some.injEq] at h1; tauto
  · exfalso; simp only [Option.some.injEq] at h2; tauto
  · exfalso; simp only [Option.some.injEq] at h3; tauto
  · exfalso; simp only [Option.some.injEq] at h4; tauto
  · rfl

/-- C7: the axios-error path of `handleError` always yields
`success=false` and preserves the upstream status under `debug.status`;
status 401 (and 403) maps to the re-authenticate message, 404 to
not-found, 429 to rate-limit, 500/502/503 to unavailable, and any other
status keeps the per-call message while the upstream
errorCode/errorMessage pass through in `error`. -/
theorem handleError_status_mapping (ax : AxiosErr) (userMessage : String) :
    (handleError (.axios ax) userMessage : IGResponse JVal).success = false
    ∧ ((handleError (.axios ax) userMessage : IGResponse JVal).debug.map DebugInfo.status)
        = some (ax.response.map AxiosResponse.status)
    ∧ (ax.response.map AxiosResponse.status = some 401 →
        (handleError (.axios ax) userMessage : IGResponse JVal).userMessage
          = some "Authentication failed. Please check your credentials and try logging in again.")
    ∧ (ax.response.map AxiosResponse.status = some 404 →
        (handleError (.axios ax) userMessage : IGResponse JVal).userMessage
          = some "The requested resource was not found. Please check the parameters.")
    ∧ (ax.response.map AxiosResponse.status = some 429 →
        (handleError (.axios ax) userMessage : IGResponse JVal).userMessage
          = some "Rate limit exceeded. Please wait a moment before trying again.")
    ∧ (∀ s : Nat, ax.response.map AxiosResponse.status = some s →
        (s = 500 ∨ s = 502 ∨ s = 503) →
        (handleError (.axios ax) userMessage : IGResponse JVal).userMessage
          = some "IG API is currently unavailable. Please try again later.")
    ∧ (∀ s : Nat, ax.response.map AxiosResponse.status = some s →
        ¬(s = 401 ∨ s = 403 ∨ s = 404 ∨ s = 429 ∨ s = 500 ∨ s = 502 ∨ s = 503) →
        (handleError (.axios ax) userMessage : IGResponse JVal).userMessage
          = some userMessage)
    ∧ (∀ (resp : AxiosResponse) (c m : String), ax.response = some resp →
        resp.data.truthy = true →
        resp.data.objField "errorCode" = some (.str c) →
        resp.data.objField "errorMessage" = some (.str m) → m ≠ "" →
        (handleError (.axios ax) userMessage : IGResponse JVal).error = some ⟨c, m⟩) := by
  have hmsg : (handleError (.axios ax) userMessage : IGResponse JVal).userMessage
      = some (friendlyMessage (ax.response.map AxiosResponse.status) userMessage) := rfl
  refine ⟨rfl, rfl, ?_, ?_, ?_, ?_, ?_, ?_⟩
  · intro h; rw [hmsg, h]; rfl
  · intro h; rw [hmsg, h]; rfl
  · intro h; rw [hmsg, h]; rfl
  · rintro s h (rfl | rfl | rfl) <;> (rw [hmsg, h]; rfl)
  · intro s h hn
    rw [hmsg, h, friendlyMessage_unmapped s userMessage hn]
  · intro resp c m hresp htr hcode hm hne
    have herr : (handleError (.axios ax) userMessage : IGResponse JVal).error
        = some ⟨(errorBits ax).1, (errorBits ax).2⟩ := rfl
    rw [herr]
    unfold errorBits
    rw [hresp]
    simp only [htr, if_true, hcode, hm]
    simp [JVal.asStringOpt, hne]

/-- C7 witness: a concrete 401 axios error carrying an upstream error
body obtains the mapped re-authenticate message and the error
pass-through, and a concrete unmapped status keeps the per-call message. -/
theorem handleError_status_mapping_witness :
    (handleError (.axios ⟨some ⟨401, "Unauthorized",
        .obj [("errorCode", .str "E1"), ("errorMessage", .str "M1")], []⟩, "boom", none⟩)
      "ctx" : IGResponse JVal).userMessage
        = some "Authentication failed. Please check your credentials and try logging in again."
    ∧ (handleError (.axios ⟨some ⟨401, "Unauthorized",
        .obj [("errorCode", .str "E1"), ("errorMessage", .str "M1")], []⟩, "boom", none⟩)
      "ctx" : IGResponse JVal).error = some ⟨"E1", "M1"⟩
    ∧ (handleError (.axios ⟨some ⟨418, "Teapot", .null, []⟩, "boom", none⟩)
      "ctx" : IGResponse JVal).userMessage = some "ctx" := by
  refine ⟨?_, ?_, ?_⟩
  · exact (handleError_status_mapping _ "ctx").2.2.1 rfl
  · exact (handleError_status_mapping _ "ctx").2.2.2.2.2.2.2 _ "E1" "M1" rfl rfl rfl rfl
      (by decide)
  · exact (handleError_status_mapping _ "ctx").2.2.2.2.2.2.1 418 rfl (by decide)

/-- C8: on an HTTP-success session response, a missing (falsy) CST or
X-SECURITY-TOKEN header makes `authenticate` fail with AUTH_ERROR and no
session, leaving the client untouched; with both tokens present it
succeeds with a session carrying both tokens and `authenticated=true`,
and caches the tokens as the client's default headers. -/
theorem authenticate_token_handling (c : IGClient) (creds : IGCredentials)
    (resp : AxiosResponse) (now : Nat) :
    ((truthyS (headerLookup resp.headers "cst") = false
        ∨ truthyS (headerLookup resp.headers "x-security-token") = false) →
      (IGClient.authenticate c creds (.success resp) now).1.success = false
      ∧ (IGClient.authenticate c creds (.success resp) now).1.data = none
      ∧ (IGClient.authenticate c creds (.success resp) now).1.error
          = some ⟨"AUTH_ERROR", "Missing authentication tokens in response"⟩
      ∧ (IGClient.authenticate c creds (.success resp) now).2 = c)
    ∧ (∀ cs xs : String, headerLookup resp.headers "cst" = some cs → cs ≠ "" →
        headerLookup resp.headers "x-security-token" = some xs → xs ≠ "" →
        (IGClient.authenticate c creds (.success resp) now).1.success = true
        ∧ (∃ sess : IGSession,
            (IGClient.authenticate c creds (.success resp) now).1.data = some sess
            ∧ sess.cst = some cs ∧ sess.xSecurityToken = some xs
            ∧ sess.authenticated = true)
        ∧ (IGClient.authenticate c creds (.success resp) now).2.cstHeader = some cs
        ∧ (IGClient.authenticate c creds (.success resp) now).2.xstHeader = some xs) := by
  constructor
  · intro h
    simp only [IGClient.authenticate]
    rw [if_pos h]
    exact ⟨rfl, rfl, rfl, rfl⟩
  · intro cs xs hcs hcsne hxs hxsne
    have hcond : ¬(truthyS (headerLookup resp.headers "cst") = false
        ∨ truthyS (headerLookup resp.headers "x-security-token") = false) := by
      rw [hcs, hxs]
      simp [truthyS, hcsne, hxsne]
    simp only [IGClient.authenticate]
    rw [if_neg hcond]
    refine ⟨rfl, ⟨_, rfl, ?_, ?_, rfl⟩, ?_, ?_⟩ <;> simp [hcs, hxs]

/-- C8 witness: a response carrying both tokens authenticates, one with
no headers is rejected with AUTH_ERROR. -/
theorem authenticate_token_handling_witness :
    ((IGClient.authenticate ⟨"k", "u", none, none⟩ ⟨"a", "b", "k"⟩
        (.success ⟨200, "OK", .obj [], [("cst", "C1"), ("x-security-token", "X1")]⟩) 0).1.success
      = true)
    ∧ ((IGClient.authenticate ⟨"k", "u", none, none⟩ ⟨"a", "b", "k"⟩
        (.success ⟨200, "OK", .obj [], []⟩) 0).1.error
      = some ⟨"AUTH_ERROR", "Missing authentication tokens in response"⟩) := by
  constructor
  · exact ((authenticate_token_handling ⟨"k", "u", none, none⟩ ⟨"a", "b", "k"⟩
      ⟨200, "OK", .obj [], [("cst", "C1"), ("x-security-token", "X1")]⟩ 0).2
      "C1" "X1" rfl (by decide) rfl (by decide)).1
  · exact ((authenticate_token_handling ⟨"k", "u", none, none⟩ ⟨"a", "b", "k"⟩
      ⟨200, "OK", .obj [], []⟩ 0).1 (Or.inl rfl)).2.2.1

theorem ensureClient_sessions (cfg : ServerConfig) (st : ServerState) (connId : String) :
    (ensureClient cfg st connId).sessions = st.sessions := by
  unfold ensureClient
  cases getAssoc st.clients connId <;> rfl

theorem ensureClient_authConns (cfg : ServerConfig) (st : ServerState) (connId : String) :
    (ensureClient cfg st connId).authenticatedConnections
      = st.authenticatedConnections := by
  unfold ensureClient
  cases getAssoc st.clients connId <;> rfl

theorem isConnectionAuthenticated_ensureClient (cfg : ServerConfig) (st : ServerState)
    (connId cid : String) :
    isConnectionAuthenticated cfg (ensureClient cfg st connId) cid
      = isConnectionAuthenticated cfg st cid := by
  unfold isConnectionAuthenticated
  rw [ensureClient_authConns]

/-- A do-nothing broker oracle used by concrete instantiations. -/
def noopOracle : BrokerOracle :=
  ⟨fun _ => .failure (.other (.nonError "net")), 0, fun _ => .error (.nonError "net")⟩

/-- C10: with no gatekeeping secret configured, mcp_authenticate answers
with a success envelope carrying `authenticated: true` whatever apiKey
argument is supplied; with a secret configured but REQUIRE_AUTHENTICATION
disabled, any (wrong or missing) key still gets the success message. -/
theorem mcp_authenticate_open_acceptance (cfg : ServerConfig) (st : ServerState)
    (connId : String) (args : Option ToolArgs) (oracle : BrokerOracle) :
    (cfg.MCP_SERVER_API_KEY = "" →
      (executeToolCall cfg st connId "mcp_authenticate" args oracle).envelope.isError = false
      ∧ (executeToolCall cfg st connId "mcp_authenticate" args oracle).envelope.body.data
          = some (.obj [("authenticated", .bool true)])
      ∧ (executeToolCall cfg st connId "mcp_authenticate" args oracle).envelope.body.message
          = "No API key required. Server is open for connections.")
    ∧ (cfg.MCP_SERVER_API_KEY ≠ "" → cfg.REQUIRE_AUTHENTICATION = false →
      (executeToolCall cfg st connId "mcp_authenticate" args oracle).envelope.isError = false
      ∧ (executeToolCall cfg st connId "mcp_authenticate" args oracle).envelope.body.message
          = "Successfully authenticated with MCP server. You can now use IG API tools.") := by
  have hred : executeToolCall cfg st connId "mcp_authenticate" args oracle
      = ⟨(mcpAuthCase cfg (ensureClient cfg st connId) connId args).1,
         (mcpAuthCase cfg (ensureClient cfg st connId) connId args).2.1,
         (mcpAuthCase cfg (ensureClient cfg st connId) connId args).2.2⟩ := by
    unfold executeToolCall dispatchBody executeToolCallBody
    rw [if_neg (fun h => h.2 rfl), if_pos rfl]
  rw [hred]
  constructor
  · intro hkey
    simp only [mcpAuthCase]
    rw [if_pos hkey]
    exact ⟨rfl, rfl, rfl⟩
  · intro hkey hreq
    simp only [mcpAuthCase, authenticateConnection]
    rw [if_neg hkey, if_pos (Or.inl hreq)]
    exact ⟨rfl, rfl⟩

/-- C10 witness: a server with no secret accepts with no key supplied; a
server with secret "K" but gatekeeping disabled accepts a wrong key. -/
theorem mcp_authenticate_open_acceptance_witness :
    ((executeToolCall ⟨"", "", "", "", "", false, true⟩ ⟨[], [], []⟩ "c"
        "mcp_authenticate" none noopOracle).envelope.isError = false
      ∧ (executeToolCall ⟨"", "", "", "", "", false, true⟩ ⟨[], [], []⟩ "c"
        "mcp_authenticate" none noopOracle).envelope.body.data
          = some (.obj [("authenticated", .bool true)]))
    ∧ ((executeToolCall ⟨"", "", "", "", "K", false, false⟩ ⟨[], [], []⟩ "c"
        "mcp_authenticate" (some { apiKey := some "WRONG" }) noopOracle).envelope.isError
          = false
      ∧ (executeToolCall ⟨"", "", "", "", "K", false, false⟩ ⟨[], [], []⟩ "c"
        "mcp_authenticate" (some { apiKey := some "WRONG" }) noopOracle).envelope.body.message
          = "Successfully authenticated with MCP server. You can now use IG API tools.") := by
  constructor
  · have h := (mcp_authenticate_open_acceptance ⟨"", "", "", "", "", false, true⟩
      ⟨[], [], []⟩ "c" none noopOracle).1 rfl
    exact ⟨h.1, h.2.1⟩
  · have h := (mcp_authenticate_open_acceptance ⟨"", "", "", "", "K", false, false⟩
      ⟨[], [], []⟩ "c" (some { apiKey := some "WRONG" }) noopOracle).2 (by decide) rfl
    exact h

/-- C3: with REQUIRE_ENV_CREDENTIALS enabled, an ig_login call carrying
any truthy credential argument yields an error envelope and performs no
broker call, whatever the configured environment credentials are. -/
theorem strict_credential_mode_rejects_tool_credentials (cfg : ServerConfig)
    (st : ServerState) (connId : String) (args : Option ToolArgs) (oracle : BrokerOracle)
    (hstrict : cfg.REQUIRE_ENV_CREDENTIALS = true)
    (htool : credentialsFromTool args = true) :
    (executeToolCall cfg st connId "ig_login" args oracle).envelope.isError = true
    ∧ (executeToolCall cfg st connId "ig_login" args oracle).calls = [] := by
  unfold executeToolCall dispatchBody executeToolCallBody
  by_cases hg : isConnectionAuthenticated cfg (ensureClient cfg st connId) connId = false
  · rw [if_pos ⟨hg, by decide⟩]
    exact ⟨rfl, rfl⟩
  · rw [if_neg (fun h => hg h.1), if_neg (by decide), if_pos rfl]
    simp only [igLoginCase]
    rw [if_pos (show (cfg.REQUIRE_ENV_CREDENTIALS && credentialsFromTool args) = true by
      simp [hstrict, htool])]
    exact ⟨rfl, rfl⟩

/-- C3 witness: strict mode with full environment credentials still
rejects a login carrying a username argument, with no broker call. -/
theorem strict_credential_mode_rejects_tool_credentials_witness :
    (executeToolCall ⟨"K", "U", "P", "", "", true, true⟩ ⟨[], [], []⟩ "c" "ig_login"
        (some { username := some "u" }) noopOracle).envelope.isError = true
    ∧ (executeToolCall ⟨"K", "U", "P", "", "", true, true⟩ ⟨[], [], []⟩ "c" "ig_login"
        (some { username := some "u" }) noopOracle).calls = [] :=
  strict_credential_mode_rejects_tool_credentials _ _ _ _ _ rfl rfl

/-- C1: any tool other than ig_login and mcp_authenticate, invoked on a
connection with no authenticated session, answers an error envelope and
invokes no IGClient method. -/
theorem unauthenticated_tool_call_errors_without_broker_call (cfg : ServerConfig)
    (st : ServerState) (connId : String) (name : String) (args : Option ToolArgs)
    (oracle : BrokerOracle)
    (hn1 : name ≠ "ig_login") (hn2 : name ≠ "mcp_authenticate")
    (hauth : SessionManager.isAuthenticated st.sessions connId = false) :
    (executeToolCall cfg st connId name args oracle).envelope.isError = true
    ∧ (executeToolCall cfg st connId name args oracle).calls = [] := by
  have hens : ensureAuthenticated (ensureClient cfg st connId).sessions connId
      = some "Not authenticated. Please use the login tool first." := by
    rw [ensureClient_sessions]
    exact ensureAuthenticated_of_not_isAuthenticated _ _ hauth
  unfold executeToolCall dispatchBody executeToolCallBody
  by_cases hg : isConnectionAuthenticated cfg (ensureClient cfg st connId) connId = false
  · rw [if_pos ⟨hg, hn2⟩]
    exact ⟨rfl, rfl⟩
  · rw [if_neg (fun h => hg h.1), if_neg hn2, if_neg hn1]
    by_cases hlo : name = "ig_logout"
    · rw [if_pos hlo]
      simp [igLogoutCase, hens]
    · rw [if_neg hlo]
      cases hrc : resourceCallOf name args with
      | some call => simp [handleResource, hens]
      | none => exact ⟨rfl, rfl⟩

/-- C1 witness: ig_get_positions with no session errors with no broker
call. -/
theorem unauthenticated_tool_call_errors_without_broker_call_witness :
    (executeToolCall ⟨"", "", "", "", "", false, true⟩ ⟨[], [], []⟩ "c"
        "ig_get_positions" none noopOracle).envelope.isError = true
    ∧ (executeToolCall ⟨"", "", "", "", "", false, true⟩ ⟨[], [], []⟩ "c"
        "ig_get_positions" none noopOracle).calls = [] :=
  unauthenticated_tool_call_errors_without_broker_call _ _ _ _ _ _
    (by decide) (by decide) rfl

theorem unexpected_message_ne_empty (m : String) : ("Unexpected error: " ++ m) ≠ "" := by
  intro h
  have hlen := congrArg String.length h
  rw [String.length_append] at hlen
  have h18 : ("Unexpected error: " : String).length = 18 := rfl
  have h0 : ("" : String).length = 0 := rfl
  omega

/-- C9: whenever the handler body throws, `executeToolCall` returns (never
propagates) an error envelope carrying the thrown message, with the stack
under debug. -/
theorem dispatch_catches_thrown_exceptions (cfg : ServerConfig) (st : ServerState)
    (connId : String) (name : String) (args : Option ToolArgs) (oracle : BrokerOracle)
    (t : JsThrown)
    (h : ∃ s cs, dispatchBody cfg st connId name args oracle = .error (t, s, cs)) :
    (executeToolCall cfg st connId name args oracle).envelope.isError = true
    ∧ (executeToolCall cfg st connId name args oracle).envelope.body.message
        = "Unexpected error: " ++ thrownMessage t
    ∧ (executeToolCall cfg st connId name args oracle).envelope.body.debug
        = some (.obj [("error", .str (thrownStack t))]) := by
  obtain ⟨s, cs, h⟩ := h
  unfold executeToolCall
  rw [h]
  refine ⟨rfl, ?_, rfl⟩
  show jsOr (some ("Unexpected error: " ++ thrownMessage t)) "Operation completed successfully"
      = "Unexpected error: " ++ thrownMessage t
  simp only [jsOr]
  rw [if_neg (unexpected_message_ne_empty (thrownMessage t))]

/-- C9 witness: a broker call that throws is converted into the catch
envelope. -/
theorem dispatch_catches_thrown_exceptions_witness :
    (executeToolCall ⟨"", "", "", "", "", false, true⟩
        ⟨[], [], [("c", ⟨some ⟨none, none, some "C", some "X", none, none, none, true, none⟩,
          none⟩)]⟩ "c" "ig_get_positions" none
        ⟨fun _ => .failure (.other (.nonError "boom")), 0,
          fun _ => .error (.nonError "boom")⟩).envelope.isError = true
    ∧ (executeToolCall ⟨"", "", "", "", "", false, true⟩
        ⟨[], [], [("c", ⟨some ⟨none, none, some "C", some "X", none, none, none, true, none⟩,
          none⟩)]⟩ "c" "ig_get_positions" none
        ⟨fun _ => .failure (.other (.nonError "boom")), 0,
          fun _ => .error (.nonError "boom")⟩).envelope.body.message
      = "Unexpected error: boom" := by
  have h := dispatch_catches_thrown_exceptions ⟨"", "", "", "", "", false, true⟩
    ⟨[], [], [("c", ⟨some ⟨none, none, some "C", some "X", none, none, none, true, none⟩,
      none⟩)]⟩ "c" "ig_get_positions" none
    ⟨fun _ => .failure (.other (.nonError "boom")), 0,
      fun _ => .error (.nonError "boom")⟩ (.nonError "boom") ⟨_, _, rfl⟩
  exact ⟨h.1, h.2.1⟩

/-- The only producer of failed results in the client is `handleError`,
which never attaches data; an oracle is well-formed when its resource
results respect this. -/
def OracleWF (oracle : BrokerOracle) : Prop :=
  ∀ (call : BrokerCall) (r : IGResponse JVal),
    oracle.resource call = .ok r → r.success = false → r.data = none

/-- Every `IGResponse` produced by `handleError` carries no data. -/
theorem handleError_data_none {α : Type} (e : ThrownError) (m : String) :
    (handleError e m : IGResponse α).data = none := by
  cases e <;> rfl

/-- If a body outcome resolved to an envelope, an error verdict implies
absent data. -/
def OkErrImpliesNoData
    (r : Except (JsThrown × ServerState × List BrokerCall)
      (Envelope × ServerState × List BrokerCall)) : Prop :=
  match r with
  | .ok (e, _, _) => e.isError = true → e.body.data = none
  | .error _ => True

theorem mcpAuthCase_err_no_data (cfg : ServerConfig) (st : ServerState)
    (connId : String) (args : Option ToolArgs) :
    (mcpAuthCase cfg st connId args).1.isError = true →
    (mcpAuthCase cfg st connId args).1.body.data = none := by
  simp only [mcpAuthCase]
  split_ifs with h1 h2
  · intro h; simp at h
  · intro h; simp at h
  · intro _; rfl

theorem loginFinish_err_no_data (st : ServerState) (connId : String)
    (result : IGResponse IGSession) (creds : IGCredentials) :
    (loginFinish st connId result creds).1.isError = true →
    (loginFinish st connId result creds).1.body.data = none := by
  unfold loginFinish
  split
  · split_ifs with hs
    · intro h; simp at h
    · intro _; rfl
  · intro _; rfl

theorem igLoginCase_err_no_data (cfg : ServerConfig) (st : ServerState)
    (connId : String) (client : IGClient) (args : Option ToolArgs)
    (oracle : BrokerOracle) :
    (igLoginCase cfg st connId client args oracle).1.isError = true →
    (igLoginCase cfg st connId client args oracle).1.body.data = none := by
  simp only [igLoginCase]
  split_ifs with h1 h2 h3
  · intro _; rfl
  · intro _; rfl
  · exact loginFinish_err_no_data _ _ _ _
  · exact loginFinish_err_no_data _ _ _ _

theorem igLogoutCase_err_no_data (st : ServerState) (connId : String) :
    (igLogoutCase st connId).1.isError = true →
    (igLogoutCase st connId).1.body.data = none := by
  unfold igLogoutCase
  cases h : ensureAuthenticated st.sessions connId with
  | none => intro hh; simp at hh
  | some a => intro _; rfl

theorem handleResource_err_no_data (st : ServerState) (connId : String)
    (client : IGClient) (call : BrokerCall) (oracle : BrokerOracle)
    (hwf : OracleWF oracle) :
    OkErrImpliesNoData (handleResource st connId client call oracle) := by
  unfold handleResource
  cases h : ensureAuthenticated st.sessions connId with
  | some a => intro _; rfl
  | none =>
    cases hr : oracle.resource call with
    | error t => trivial
    | ok result =>
      intro herr
      have hs : result.success = false := by simpa using herr
      have hd := hwf call result hr hs
      simpa [formatResponse] using hd

theorem body_ok_err_no_data (cfg : ServerConfig) (st : ServerState) (connId : String)
    (client : IGClient) (name : String) (args : Option ToolArgs) (oracle : BrokerOracle)
    (hwf : OracleWF oracle) :
    OkErrImpliesNoData (executeToolCallBody cfg st connId client name args oracle) := by
  unfold executeToolCallBody
  split_ifs with hg hmcp hlog hout
  · intro _; rfl
  · exact mcpAuthCase_err_no_data _ _ _ _
  · exact igLoginCase_err_no_data _ _ _ _ _ _
  · exact igLogoutCase_err_no_data _ _
  · cases hrc : resourceCallOf name args with
    | some call => exact handleResource_err_no_data _ _ _ _ _ hwf
    | none => intro _; rfl

/-- C2 (amended): an error envelope always has absent/null data; the
converse direction of the claimed equivalence fails (see the
counterexample: the ig_logout success envelope carries `data: null`
with `isError: false`). -/
theorem error_envelope_has_no_data (cfg : ServerConfig) (st : ServerState)
    (connId : String) (name : String) (args : Option ToolArgs) (oracle : BrokerOracle)
    (hwf : OracleWF oracle)
    (herr : (executeToolCall cfg st connId name args oracle).envelope.isError = true) :
    (executeToolCall cfg st connId name args oracle).envelope.body.data = none := by
  have hb : OkErrImpliesNoData (dispatchBody cfg st connId name args oracle) :=
    body_ok_err_no_data cfg (ensureClient cfg st connId) connId
      (clientFor cfg (ensureClient cfg st connId) connId) name args oracle hwf
  unfold executeToolCall at herr ⊢
  cases hd : dispatchBody cfg st connId name args oracle with
  | ok p =>
    obtain ⟨e, s, cs⟩ := p
    rw [hd] at hb herr
    exact hb herr
  | error q => rfl

/-- C2 counterexample: the successful ig_logout envelope has `data: null`
while `isError` is `false`, refuting the claimed equivalence between
`isError=true` and absent/null data. -/
theorem logout_success_envelope_counterexample :
    (executeToolCall ⟨"", "", "", "", "", false, true⟩
        ⟨[], [], [("c", ⟨some ⟨none, none, some "C", some "X", none, none, none, true, none⟩,
          none⟩)]⟩ "c" "ig_logout" none noopOracle).envelope.isError = false
    ∧ (executeToolCall ⟨"", "", "", "", "", false, true⟩
        ⟨[], [], [("c", ⟨some ⟨none, none, some "C", some "X", none, none, none, true, none⟩,
          none⟩)]⟩ "c" "ig_logout" none noopOracle).envelope.body.data = none :=
  ⟨rfl, rfl⟩

/-- C2 witness: an unknown-tool error envelope, produced under a
well-formed oracle, indeed carries no data. -/
theorem error_envelope_has_no_data_witness :
    (executeToolCall ⟨"", "", "", "", "", false, true⟩ ⟨[], [], []⟩ "c" "zzz" none
        noopOracle).envelope.body.data = none :=
  error_envelope_has_no_data _ _ _ _ _ _
    (by intro call r h hs; simp [noopOracle] at h) rfl

theorem authenticate_success_parts (c : IGClient) (creds : IGCredentials)
    (resp : AxiosResponse) (now : Nat) (cs xs : String)
    (hcs : headerLookup resp.headers "cst" = some cs) (hcsne : cs ≠ "")
    (hxs : headerLookup resp.headers "x-security-token" = some xs) (hxsne : xs ≠ "") :
    (IGClient.authenticate c creds (.success resp) now).1.success = true
    ∧ ∃ sd : IGSession,
        (IGClient.authenticate c creds (.success resp) now).1.data = some sd
        ∧ sd.authenticated = true := by
  have hcond : ¬(truthyS (headerLookup resp.headers "cst") = false
      ∨ truthyS (headerLookup resp.headers "x-security-token") = false) := by
    rw [hcs, hxs]
    simp [truthyS, hcsne, hxsne]
  simp only [IGClient.authenticate]
  rw [if_neg hcond]
  exact ⟨rfl, _, rfl, rfl⟩

theorem loginFinish_success_state (st : ServerState) (connId : String)
    (result : IGResponse IGSession) (creds : IGCredentials) (sd : IGSession)
    (hd : result.data = some sd) (hs : result.success = true) :
    (loginFinish st connId result creds).2.1.sessions
        = SessionManager.setCredentials
            (SessionManager.setSession st.sessions connId sd) connId creds
    ∧ (loginFinish st connId result creds).2.1.authenticatedConnections
        = st.authenticatedConnections := by
  simp only [loginFinish, hd]
  rw [if_pos hs]
  cases hga : getAssoc st.clients connId <;> simp [hga]

theorem isAuthenticated_after_login_store (ss : Sessions) (connId : String)
    (sd : IGSession) (creds : IGCredentials) :
    SessionManager.isAuthenticated
        (SessionManager.setCredentials
          (SessionManager.setSession ss connId sd) connId creds) connId
      = sd.authenticated := by
  unfold SessionManager.isAuthenticated
  rw [SessionManager.getSession_setCredentials_self,
    SessionManager.getSession_setSession_self]

theorem logout_clears_session (cfg : ServerConfig) (st : ServerState) (connId : String)
    (args : Option ToolArgs) (oracle : BrokerOracle)
    (hgate : isConnectionAuthenticated cfg st connId = true)
    (hauth : SessionManager.isAuthenticated st.sessions connId = true) :
    SessionManager.isAuthenticated
      (executeToolCall cfg st connId "ig_logout" args oracle).state.sessions connId
      = false := by
  have hg2 : isConnectionAuthenticated cfg (ensureClient cfg st connId) connId = true := by
    rw [isConnectionAuthenticated_ensureClient]
    exact hgate
  have hens : ensureAuthenticated (ensureClient cfg st connId).sessions connId = none := by
    rw [ensureClient_sessions]
    exact ensureAuthenticated_of_isAuthenticated _ _ hauth
  unfold executeToolCall dispatchBody executeToolCallBody
  rw [if_neg (by intro h; rw [h.1] at hg2; exact Bool.noConfusion hg2),
    if_neg (by decide), if_neg (by decide), if_pos rfl]
  simp only [igLogoutCase, hens]
  exact SessionManager.isAuthenticated_clearSession_self _ _

theorem login_sets_session (cfg : ServerConfig) (st : ServerState) (connId : String)
    (args : Option ToolArgs) (oracle : BrokerOracle) (resp : AxiosResponse) (cs xs : String)
    (hgate : isConnectionAuthenticated cfg st connId = true)
    (hstrict : (cfg.REQUIRE_ENV_CREDENTIALS && credentialsFromTool args) = false)
    (hu : (resolvedCredentials cfg args).username ≠ "")
    (hp : (resolvedCredentials cfg args).password ≠ "")
    (hk : (resolvedCredentials cfg args).apiKey ≠ "")
    (hauth : oracle.auth (resolvedCredentials cfg args) = .success resp)
    (hcs : headerLookup resp.headers "cst" = some cs) (hcsne : cs ≠ "")
    (hxs : headerLookup resp.headers "x-security-token" = some xs) (hxsne : xs ≠ "") :
    SessionManager.isAuthenticated
        (executeToolCall cfg st connId "ig_login" args oracle).state.sessions connId = true
    ∧ (executeToolCall cfg st connId "ig_login" args oracle).state.authenticatedConnections
        = st.authenticatedConnections := by
  have hg2 : isConnectionAuthenticated cfg (ensureClient cfg st connId) connId = true := by
    rw [isConnectionAuthenticated_ensureClient]
    exact hgate
  unfold executeToolCall dispatchBody executeToolCallBody
  rw [if_neg (by intro h; rw [h.1] at hg2; exact Bool.noConfusion hg2),
    if_neg (by decide), if_pos rfl]
  simp only [igLoginCase]
  rw [if_neg (by intro h; rw [hstrict] at h; exact Bool.noConfusion h),
    if_neg (by intro h; rcases h with h | h | h; exacts [hu h, hp h, hk h]),
    hauth]
  by_cases hbr : (truthyS (args.bind (·.apiKey))
      && args.bind (·.apiKey) != some cfg.API_KEY) = true
  · rw [if_pos hbr]
    obtain ⟨hsucc, sd, hdata, hsd⟩ := authenticate_success_parts
      ⟨(resolvedCredentials cfg args).apiKey, cfg.API_URL, none, none⟩
      (resolvedCredentials cfg args) resp oracle.now cs xs hcs hcsne hxs hxsne
    constructor
    · rw [(loginFinish_success_state _ _ _ _ sd hdata hsucc).1]
      simp [isAuthenticated_after_login_store, ensureClient_sessions, hsd]
    · rw [(loginFinish_success_state _ _ _ _ sd hdata hsucc).2]
      simp [ensureClient_authConns]
  · rw [if_neg (by simpa using hbr)]
    obtain ⟨hsucc, sd, hdata, hsd⟩ := authenticate_success_parts
      (clientFor cfg (ensureClient cfg st connId) connId)
      (resolvedCredentials cfg args) resp oracle.now cs xs hcs hcsne hxs hxsne
    constructor
    · rw [(loginFinish_success_state _ _ _ _ sd hdata hsucc).1]
      simp [isAuthenticated_after_login_store, ensureClient_sessions, hsd]
    · rw [(loginFinish_success_state _ _ _ _ sd hdata hsucc).2]
      simp [ensureClient_authConns]

/-- C5: a successful ig_login (broker HTTP success with both tokens)
makes `SessionManager.isAuthenticated` true for the connection identity;
a subsequent ig_logout makes it false; and `isAuthenticated` is true
only when a stored session has `authenticated=true`. -/
theorem login_logout_session_lifecycle (cfg : ServerConfig) (st : ServerState)
    (connId : String) (args : Option ToolArgs) (oracle : BrokerOracle)
    (args2 : Option ToolArgs) (oracle2 : BrokerOracle)
    (resp : AxiosResponse) (cs xs : String)
    (hgate : isConnectionAuthenticated cfg st connId = true)
    (hstrict : (cfg.REQUIRE_ENV_CREDENTIALS && credentialsFromTool args) = false)
    (hu : (resolvedCredentials cfg args).username ≠ "")
    (hp : (resolvedCredentials cfg args).password ≠ "")
    (hk : (resolvedCredentials cfg args).apiKey ≠ "")
    (hauth : oracle.auth (resolvedCredentials cfg args) = .success resp)
    (hcs : headerLookup resp.headers "cst" = some cs) (hcsne : cs ≠ "")
    (hxs : headerLookup resp.headers "x-security-token" = some xs) (hxsne : xs ≠ "") :
    SessionManager.isAuthenticated
        (executeToolCall cfg st connId "ig_login" args oracle).state.sessions connId = true
    ∧ SessionManager.isAuthenticated
        (executeToolCall cfg (executeToolCall cfg st connId "ig_login" args oracle).state
          connId "ig_logout" args2 oracle2).state.sessions connId = false
    ∧ (∀ (ss : Sessions) (cid : String),
        SessionManager.isAuthenticated ss cid = true →
        ∃ s : IGSession, SessionManager.getSession ss cid = some s
          ∧ s.authenticated = true) := by
  obtain ⟨h1, h2⟩ := login_sets_session cfg st connId args oracle resp cs xs
    hgate hstrict hu hp hk hauth hcs hcsne hxs hxsne
  refine ⟨h1, ?_, ?_⟩
  · apply logout_clears_session
    · show isConnectionAuthenticated cfg _ connId = true
      unfold isConnectionAuthenticated
      rw [h2]
      unfold isConnectionAuthenticated at hgate
      exact hgate
    · exact h1
  · intro ss cid hh
    unfold SessionManager.isAuthenticated at hh
    cases hgs : SessionManager.getSession ss cid with
    | none => rw [hgs] at hh; cases hh
    | some s =>
      rw [hgs] at hh
      simp at hh
      exact ⟨s, rfl, hh⟩

/-- C5 witness: with environment credentials and a token-bearing broker
response, login authenticates the connection and logout clears it. -/
theorem login_logout_session_lifecycle_witness :
    SessionManager.isAuthenticated
        (executeToolCall ⟨"K", "U", "P", "url", "", false, true⟩ ⟨[], [], []⟩ "c"
          "ig_login" none
          ⟨fun _ => .success ⟨200, "OK", .obj [], [("cst", "C"), ("x-security-token", "X")]⟩,
            0, fun _ => .error (.nonError "e")⟩).state.sessions "c" = true
    ∧ SessionManager.isAuthenticated
        (executeToolCall ⟨"K", "U", "P", "url", "", false, true⟩
          (executeToolCall ⟨"K", "U", "P", "url", "", false, true⟩ ⟨[], [], []⟩ "c"
            "ig_login" none
            ⟨fun _ => .success ⟨200, "OK", .obj [], [("cst", "C"), ("x-security-token", "X")]⟩,
              0, fun _ => .error (.nonError "e")⟩).state
          "c" "ig_logout" none noopOracle).state.sessions "c" = false := by
  have h := login_logout_session_lifecycle ⟨"K", "U", "P", "url", "", false, true⟩
    ⟨[], [], []⟩ "c" none
    ⟨fun _ => .success ⟨200, "OK", .obj [], [("cst", "C"), ("x-security-token", "X")]⟩,
      0, fun _ => .error (.nonError "e")⟩ none noopOracle
    ⟨200, "OK", .obj [], [("cst", "C"), ("x-security-token", "X")]⟩ "C" "X"
    rfl rfl (by decide) (by decide) (by decide) rfl rfl (by decide) rfl (by decide)
  exact ⟨h.1, h.2.1⟩

end IgMcp
